import Mathlib

/-!
Verification development for the NRT conservancies dashboard (src/src/App.jsx).

The application is a single React component tree. We shallowly embed it as a
state machine: the data model (GeoJSON features, tab configuration), the pure
derivations (region name list, name normalization, chart URL construction), and
the event handlers (layer click, dropdown selection, tab click, panel close,
timer firings, chart responses) become Lean definitions, and the React
render/effect cycle after each handler becomes an explicit function from the
previous state to the next state plus a list of emitted effects (chart fetches,
viewport fitting, viewport-size invalidation).
-/

namespace NRTDash

/-! ## Data model (GeoJSON boundary collection, App.jsx lines 141-162) -/

/-- The properties bag of a GeoJSON feature.  Only the NAME property is read by
the application; `none` models an absent (undefined) NAME. -/
structure FeatureProps where
  NAME : Option String
  deriving DecidableEq, Repr

/-- One GeoJSON feature.  `properties = none` models a null/missing properties
object (App.jsx line 157 guards on `f.properties &&`). -/
structure Feature where
  properties : Option FeatureProps
  deriving DecidableEq, Repr

/-- The boundary collection fetched at startup (NRT_Conservancies.geojson). -/
structure FeatureCollection where
  features : List Feature
  deriving DecidableEq, Repr

/-! ## Locale comparison model

App.jsx line 160 sorts with `a.localeCompare(b)`, a JavaScript built-in.  We
model default-locale collation: the primary comparison is lexicographic on the
lowercased character sequences (so case differences are weaker than letter
differences, giving "a" before "B"), and exact code-point order breaks ties
between strings that agree after lowercasing.  (The built-in String functions
of Lean do not reduce in the kernel, so the model works on the character list
`s.data` directly; `Char.toLower` is the ASCII lowering that `toLowerCase`
performs on the names appearing in this data set.) -/

/-- The lowercased character sequence of a string. -/
def lowerData (s : String) : List Char := s.data.map Char.toLower

/-- Modelled `String.prototype.localeCompare` as a "sorts no later than"
relation. -/
def localeLe (a b : String) : Prop :=
  lowerData a < lowerData b ∨ (lowerData a = lowerData b ∧ a.data ≤ b.data)

instance : DecidableRel localeLe := fun _ _ =>
  inferInstanceAs (Decidable (_ ∨ _))

instance : IsTotal String localeLe := by
  constructor
  intro a b
  rcases lt_trichotomy (lowerData a) (lowerData b) with h | h | h
  · exact Or.inl (Or.inl h)
  · rcases le_total a.data b.data with h2 | h2
    · exact Or.inl (Or.inr ⟨h, h2⟩)
    · exact Or.inr (Or.inr ⟨h.symm, h2⟩)
  · exact Or.inr (Or.inl h)

instance : IsTrans String localeLe := by
  constructor
  intro a b c hab hbc
  rcases hab with h1 | ⟨e1, l1⟩
  · rcases hbc with h2 | ⟨e2, _⟩
    · exact Or.inl (lt_trans h1 h2)
    · exact Or.inl (e2 ▸ h1)
  · rcases hbc with h2 | ⟨e2, l2⟩
    · exact Or.inl (e1 ▸ h2)
    · exact Or.inr ⟨e1.trans e2, le_trans l1 l2⟩

/-! ## Region name list derivation (App.jsx lines 151-162) -/

/-- `features.map(f => f.properties && f.properties.NAME).filter(Boolean)`:
the NAME of every feature, keeping only truthy values (dropping missing
properties objects, missing NAMEs and empty strings). -/
def truthyNames (c : FeatureCollection) : List String :=
  (c.features.map (fun f => f.properties.bind (fun p => p.NAME))).filterMap
    (fun o => match o with
      | some s => if s = "" then none else some s
      | none => none)

/-- `.filter((v, i, a) => a.indexOf(v) === i)`: keep an element only at the
first index where it occurs (case-sensitive exact equality). -/
def dedupKeepFirst (l : List String) : List String :=
  (l.enum.filter (fun p => l.indexOf p.2 == p.1)).map Prod.snd

/-- `.sort((a, b) => a.localeCompare(b))`: since the modelled comparator is
antisymmetric, the sorted result is the unique `localeLe`-sorted permutation,
which insertion sort computes. -/
def deriveNames (c : FeatureCollection) : List String :=
  List.insertionSort localeLe (dedupKeepFirst (truthyNames c))

/-! ## Name normalization (App.jsx line 166)

`normalizeName = s => (s || "").toString().trim().toLowerCase()
                      .replace(/\s+/g, " ")` -/

/-- One pass of `replace(/\s+/g, " ")` on a character sequence: every maximal
run of whitespace becomes a single space. -/
def collapseWs : List Char → List Char
  | [] => []
  | [c] => [if c.isWhitespace then ' ' else c]
  | c :: d :: rest =>
    if c.isWhitespace && d.isWhitespace then collapseWs (d :: rest)
    else (if c.isWhitespace then ' ' else c) :: collapseWs (d :: rest)

/-- `trim()`: drop whitespace from both ends of a character sequence. -/
def trimWs (l : List Char) : List Char :=
  ((l.dropWhile Char.isWhitespace).reverse.dropWhile Char.isWhitespace).reverse

/-- The normalized lookup key: trimmed, lowercased, inner whitespace collapsed
to single spaces. -/
def normalizeName (s : String) : String :=
  String.mk (collapseWs ((trimWs s.data).map Char.toLower))

/-! ## Tab configuration and side panel (App.jsx lines 11-110) -/

/-- One entry of `TAB_CONFIG`. -/
structure TabCfg where
  id : String
  label : String
  suffix : String
  deriving DecidableEq, Repr

/-- The fixed, ordered tab configuration (App.jsx lines 11-15). -/
def TAB_CONFIG : List TabCfg :=
  [⟨"fc", "Fractional Cover", "_GroundCover"⟩,
   ⟨"ndvi", "NDVI", "_NDVI"⟩,
   ⟨"rain", "Rainfall", "_Rainfall"⟩]

/-- An opaque parsed chart specification (a Plotly figure document). -/
structure Figure where
  raw : String
  deriving DecidableEq, Repr

/-- The useState cells of the SidePanel component. -/
structure PanelState where
  activeTabId : String
  figure : Option Figure
  loading : Bool
  error : Bool
  deriving DecidableEq, Repr

/-- SidePanel state on mount: first tab active, no figure, not loading, no
error (App.jsx lines 19-22). -/
def initialPanelState : PanelState :=
  { activeTabId := (TAB_CONFIG.headD ⟨"", "", ""⟩).id
    figure := none
    loading := false
    error := false }

/-- How a chart fetch can end: the parsed body, a non-success HTTP status
(the `!res.ok` throw), or a failure parsing the body (`res.json()` throws). -/
inductive FetchOutcome
  | success (fig : Figure)
  | httpFailure
  | parseFailure
  deriving DecidableEq, Repr

/-- Outward effects emitted by handlers and render effects. -/
inductive Effect
  | fetchChart (url : String)
  | fitBounds (layer : Nat)
  | invalidateSize
  deriving DecidableEq, Repr

/-- The chart resource path (App.jsx line 36):
`BASE_URL + "figs/" + name + "/" + name + suffix + ".json"`. -/
def chartUrl (baseUrl conservancyName suffix : String) : String :=
  baseUrl ++ "figs/" ++ conservancyName ++ "/" ++ conservancyName ++ suffix ++ ".json"

/-- The state updates performed at the start of the SidePanel fetch effect
(App.jsx lines 27-29): loading on, error and figure cleared. -/
def fetchStart (ps : PanelState) : PanelState :=
  { ps with loading := true, error := false, figure := none }

/-- The SidePanel fetch effect (App.jsx lines 24-54): skipped for an empty
name; otherwise resets the cell states and issues one fetch for the active
tab.  (`TAB_CONFIG.find` cannot miss because `activeTabId` is only ever set
from `TAB_CONFIG` entries; the `none` arm mirrors that no fetch would be
built.) -/
def panelFetchEffect (baseUrl conservancyName : String) (ps : PanelState) :
    PanelState × List Effect :=
  if conservancyName = "" then (ps, [])
  else
    let ps := fetchStart ps
    match TAB_CONFIG.find? (fun t => t.id == ps.activeTabId) with
    | some t => (ps, [Effect.fetchChart (chartUrl baseUrl conservancyName t.suffix)])
    | none => (ps, [])

/-- The fetch continuation (App.jsx lines 40-53): on success store the figure
and clear loading; the catch handler — reached equally by the HTTP-status
throw and by a parse failure — sets the error flag and clears loading. -/
def applyFetchOutcome (ps : PanelState) : FetchOutcome → PanelState
  | .success fig => { ps with figure := some fig, loading := false }
  | .httpFailure => { ps with error := true, loading := false }
  | .parseFailure => { ps with error := true, loading := false }

/-- `{loading && <p>Loading ...</p>}` (App.jsx line 81). -/
def showsLoading (ps : PanelState) : Bool := ps.loading

/-- `{error && <div>Data not found.</div>}` (App.jsx lines 83-88). -/
def showsDataNotFound (ps : PanelState) : Bool := ps.error

/-- `{figure && !loading && <Plot .../>}` (App.jsx lines 90-106). -/
def showsChart (ps : PanelState) : Bool := ps.figure.isSome && !ps.loading

/-! ## Layer map and styles (App.jsx lines 118-138, 216-225) -/

/-- The two style objects (App.jsx lines 124-138), as tags. -/
inductive LayerStyle
  | conservancyStyle
  | highlightStyle
  deriving DecidableEq, Repr

/-- `layerMapRef.current`: a JS `Map` from names to layers (layer = index of
its feature), as an insertion-ordered association list. -/
abbrev LayerMap := List (String × Nat)

/-- `Map.prototype.set`: update in place if the key exists, else append. -/
def mapSet (m : LayerMap) (k : String) (v : Nat) : LayerMap :=
  if m.any (fun p => p.1 == k) then
    m.map (fun p => if p.1 == k then (k, v) else p)
  else m ++ [(k, v)]

/-- `Map.prototype.get` (`none` models undefined). -/
def mapGet (m : LayerMap) (k : String) : Option Nat :=
  (m.find? (fun p => p.1 == k)).map Prod.snd

/-- The layer-resolution used by `selectConservancyByName` (App.jsx lines
181-185): exact lookup first, normalized key only if the exact lookup missed. -/
def resolveLayer (m : LayerMap) (name : String) : Option Nat :=
  match mapGet m name with
  | some l => some l
  | none => mapGet m (normalizeName name)

/-- The NAME a feature hands to the click handler, with a falsy value read as
the empty string (the source would throw on a null properties object; such a
feature is modelled as unnamed). -/
def featureNameStr (f : Feature) : String :=
  match f.properties with
  | some p => p.NAME.getD ""
  | none => ""

/-- `onEachFeature` registration (App.jsx lines 216-221): a truthy NAME is
registered under both the exact name and its normalized key; the click handler
is attached regardless. -/
def registerFeature (m : LayerMap) (i : Nat) (f : Feature) : LayerMap :=
  let name := featureNameStr f
  if name = "" then m
  else mapSet (mapSet m name i) (normalizeName name) i

/-- The layer map after the GeoJSON component has rendered every feature. -/
def buildLayerMap (features : List Feature) : LayerMap :=
  features.enum.foldl (fun m p => registerFeature m p.1 p.2) []

/-! ## Application state and event semantics (App.jsx lines 112-290) -/

/-- The two fixed delays (both 300 ms, App.jsx lines 195 and 212). -/
def DEBOUNCE_MS : Nat := 300

/-- Delay of the scheduled viewport-size recalculation (App.jsx line 195). -/
def INVALIDATE_MS : Nat := 300

/-- The App component state: React state cells (`conservancyData`,
`conservancyList`, `selectedConservancy`, `mapReady`), refs (`selectedLayerRef`
as `selectedLayer`, `layerMapRef` as `layerMap`, map presence folded into
`mapReady`), the per-layer visual styles, the mounted SidePanel (if any), the
pending debounce timeout (with the name its closure captured) and the number
of pending invalidate-size timeouts. -/
structure AppState where
  conservancyData : Option FeatureCollection
  conservancyList : List String
  selectedConservancy : String
  mapReady : Bool
  selectedLayer : Option Nat
  styles : List LayerStyle
  layerMap : LayerMap
  panel : Option PanelState
  debounceTimer : Option String
  invalidateTimers : Nat
  deriving DecidableEq, Repr

/-- `if (updateState) setSelectedConservancy(name || "")` (App.jsx line 169);
for a `String`-typed argument `name || ""` is `name` itself. -/
def applySelectUpdate (s : AppState) (name : String) (updateState : Bool) :
    AppState :=
  if updateState then { s with selectedConservancy := name } else s

/-- Revert the previously highlighted layer to the default style and drop the
back-reference (App.jsx lines 173-177; the identical inline block of the
onClose handler, lines 279-282, is modelled by this same function). -/
def revertSelectedLayer (s : AppState) : AppState :=
  match s.selectedLayer with
  | some i =>
      { s with styles := s.styles.set i LayerStyle.conservancyStyle
               selectedLayer := none }
  | none => s

/-- Highlight a resolved layer (App.jsx lines 187-196): store the
back-reference, apply the highlight style, request `fitBounds` and schedule
the `invalidateSize` timeout. -/
def highlightLayer (s : AppState) (i : Nat) : AppState × List Effect :=
  ({ s with selectedLayer := some i
            styles := s.styles.set i LayerStyle.highlightStyle
            invalidateTimers := s.invalidateTimers + 1 },
   [Effect.fitBounds i])

/-- `selectConservancyByName` (App.jsx lines 168-198): optionally write the
selection state, bail out if the map is absent, revert the previously
highlighted layer, bail out on an empty name, resolve the layer (exact, then
normalized) and highlight it. -/
def selectConservancyByName (s : AppState) (name : String) (updateState : Bool) :
    AppState × List Effect :=
  let s := applySelectUpdate s name updateState
  if !s.mapReady then (s, [])
  else
    let s := revertSelectedLayer s
    if name = "" then (s, [])
    else
      match resolveLayer s.layerMap name with
      | some i => highlightLayer s i
      | none => (s, [])

/-- The debounce effect (App.jsx lines 208-214) during the render phase that
follows a handler.  Its dependency array is the selection, the map-ready flag
and the collection; the latter two are fixed after startup, so the effect
re-runs exactly when the selection changed since the previous render
(`prevSelected`).  Re-running first clears the pending timeout (the effect
cleanup), then schedules a new one only for a nonempty selection with the map
ready (the early return on line 209). -/
def debounceRender (prevSelected : String) (s : AppState) : AppState :=
  if s.selectedConservancy ≠ prevSelected then
    { s with debounceTimer :=
        if s.mapReady ∧ s.selectedConservancy ≠ "" then
          some s.selectedConservancy
        else none }
  else s

/-- The conditional SidePanel (App.jsx lines 274-285) during the render phase:
with an empty selection it is unmounted; with a nonempty one it mounts fresh
(initial cell states, fetch effect fires) or, when already mounted, re-runs
its fetch effect exactly when its `conservancyName` prop changed. -/
def panelRender (baseUrl prevSelected : String) (s : AppState) :
    AppState × List Effect :=
  if s.selectedConservancy = "" then ({ s with panel := none }, [])
  else
    match s.panel with
    | none =>
        let pe := panelFetchEffect baseUrl s.selectedConservancy initialPanelState
        ({ s with panel := some pe.1 }, pe.2)
    | some ps =>
        if prevSelected ≠ s.selectedConservancy then
          let pe := panelFetchEffect baseUrl s.selectedConservancy ps
          ({ s with panel := some pe.1 }, pe.2)
        else (s, [])

/-- The full render/effect phase after a handler ran. -/
def runRender (baseUrl prevSelected : String) (s : AppState) :
    AppState × List Effect :=
  panelRender baseUrl prevSelected (debounceRender prevSelected s)

/-- The environment: the loaded boundary collection and the build-time
`BASE_URL`. -/
structure Env where
  collection : FeatureCollection
  baseUrl : String
  deriving DecidableEq, Repr

/-- User interactions and asynchronous completions. -/
inductive Event
  | clickLayer (i : Nat)
  | dropdownSelect (name : String)
  | tabClick (tabId : String)
  | panelClose
  | debounceFire
  | invalidateFire
  | chartResponse (o : FetchOutcome)
  deriving DecidableEq, Repr

/-- One event of the running application, returning the next state and the
effects emitted while handling it. -/
def step (env : Env) (s : AppState) : Event → AppState × List Effect
  | .clickLayer i =>
      -- layer.on click (App.jsx lines 222-224): attached to every layer,
      -- named or not.
      match env.collection.features.get? i with
      | none => (s, [])
      | some f =>
          let r := selectConservancyByName s (featureNameStr f) true
          let r2 := runRender env.baseUrl s.selectedConservancy r.1
          (r2.1, r.2 ++ r2.2)
  | .dropdownSelect name =>
      -- handleSelectConservancy (App.jsx lines 200-206).
      let s0 := { s with selectedConservancy := name }
      let r := if s0.mapReady then selectConservancyByName s0 name false else (s0, [])
      let r2 := runRender env.baseUrl s.selectedConservancy r.1
      (r2.1, r.2 ++ r2.2)
  | .tabClick tabId =>
      -- The tab buttons (App.jsx lines 66-76) exist only while the panel is
      -- mounted and only for TAB_CONFIG entries; clicking the active tab sets
      -- the same state value, so nothing re-renders.
      match s.panel with
      | none => (s, [])
      | some ps =>
          if (TAB_CONFIG.find? (fun t => t.id == tabId)).isSome then
            if tabId = ps.activeTabId then (s, [])
            else
              let pe := panelFetchEffect env.baseUrl s.selectedConservancy
                { ps with activeTabId := tabId }
              ({ s with panel := some pe.1 }, pe.2)
          else (s, [])
  | .panelClose =>
      -- SidePanel onClose (App.jsx lines 277-283); the close button exists
      -- only while a conservancy is selected.
      if s.selectedConservancy = "" then (s, [])
      else
        runRender env.baseUrl s.selectedConservancy
          (revertSelectedLayer { s with selectedConservancy := "" })
  | .debounceFire =>
      -- The debounced `selectConservancyByName(selectedConservancy, false)`
      -- (App.jsx lines 210-212); it touches refs and layer styles only, so
      -- no render follows.
      match s.debounceTimer with
      | none => (s, [])
      | some name => selectConservancyByName { s with debounceTimer := none } name false
  | .invalidateFire =>
      -- `setTimeout(() => mapRef.current.invalidateSize(), 300)` firing.
      if s.invalidateTimers = 0 then (s, [])
      else ({ s with invalidateTimers := s.invalidateTimers - 1 },
            [Effect.invalidateSize])
  | .chartResponse o =>
      -- A fetch continuation reaching a still-mounted panel.
      match s.panel with
      | none => (s, [])
      | some ps => ({ s with panel := some (applyFetchOutcome ps o) }, [])

/-- The state after startup: collection fetched and stored, name list derived,
map created (`whenCreated`), every feature rendered with the default style and
registered in the layer map, nothing selected. -/
def initState (env : Env) : AppState :=
  { conservancyData := some env.collection
    conservancyList := deriveNames env.collection
    selectedConservancy := ""
    mapReady := true
    selectedLayer := none
    styles := env.collection.features.map (fun _ => LayerStyle.conservancyStyle)
    layerMap := buildLayerMap env.collection.features
    panel := none
    debounceTimer := none
    invalidateTimers := 0 }

/-- Run a sequence of events, discarding effects. -/
def run (env : Env) (events : List Event) (s : AppState) : AppState :=
  events.foldl (fun s e => (step env s e).1) s

/-! ## Properties of the name-list derivation -/

/-- The raw NAME column read by the derivation effect:
`conservancyData.features.map(f => f.properties && f.properties.NAME)`. -/
def rawNames (c : FeatureCollection) : List (Option String) :=
  c.features.map (fun f => f.properties.bind (fun p => p.NAME))

/-- No layer carries the highlight style. -/
def NoHighlight (styles : List LayerStyle) : Prop :=
  ∀ i : Nat, styles[i]? ≠ some LayerStyle.highlightStyle

/-- The inductive invariant: only the layer the back-reference
`selectedLayerRef` points at can carry the highlight style. -/
def HighlightInv (s : AppState) : Prop :=
  ∀ i : Nat, s.styles[i]? = some LayerStyle.highlightStyle →
    s.selectedLayer = some i

/-- At most one layer carries the highlight style. -/
def AtMostOneHighlight (s : AppState) : Prop :=
  ∀ i j : Nat, s.styles[i]? = some LayerStyle.highlightStyle →
    s.styles[j]? = some LayerStyle.highlightStyle → i = j

/-- The styles after reverting whatever layer was highlighted; used to phrase
frame conditions. -/
def revertedStyles (s : AppState) : List LayerStyle :=
  match s.selectedLayer with
  | some j => s.styles.set j LayerStyle.conservancyStyle
  | none => s.styles

/-- A small concrete boundary collection used to instantiate theorems:
two named regions, one empty-named feature and one with no NAME. -/
def sampleCollection : FeatureCollection :=
  ⟨[⟨some ⟨some "Sera Plains"⟩⟩, ⟨some ⟨some "Naapu"⟩⟩,
    ⟨some ⟨some ""⟩⟩, ⟨none⟩]⟩

/-- Concrete environment for instantiating theorems. -/
def sampleEnv : Env := ⟨sampleCollection, "/"⟩

/-- A concrete state with the region Naapu selected. -/
def sampleSelected : AppState :=
  (step sampleEnv (initState sampleEnv) (Event.dropdownSelect "Naapu")).1

theorem mem_truthyNames {x : String} {c : FeatureCollection} :
    x ∈ truthyNames c ↔ x ≠ "" ∧ some x ∈ rawNames c := by
  unfold truthyNames rawNames
  rw [List.mem_filterMap]
  constructor
  · rintro ⟨o, ho, hf⟩
    match o with
    | none => simp at hf
    | some s =>
        by_cases hs : s = "" <;> simp [hs] at hf
        exact ⟨hf ▸ hs, hf ▸ ho⟩
  · rintro ⟨hx, hmem⟩
    exact ⟨some x, hmem, by simp [hx]⟩

theorem mem_dedupKeepFirst {x : String} {l : List String} :
    x ∈ dedupKeepFirst l ↔ x ∈ l := by
  unfold dedupKeepFirst
  constructor
  · intro hx
    rcases List.mem_map.1 hx with ⟨p, hp, hpx⟩
    have hp2 := List.mem_filter.1 hp
    have := List.mk_mem_enum_iff_getElem?.1 (by
      have : (p.1, p.2) ∈ l.enum := by simpa using hp2.1
      exact this)
    subst hpx
    exact List.getElem?_mem this
  · intro hx
    have hlt : l.indexOf x < l.length := List.indexOf_lt_length.2 hx
    refine List.mem_map.2 ⟨(l.indexOf x, x), List.mem_filter.2 ⟨?_, ?_⟩, rfl⟩
    · exact List.mk_mem_enum_iff_getElem?.2
        (by rw [List.getElem?_eq_getElem hlt, List.getElem_indexOf])
    · simp

theorem nodup_dedupKeepFirst (l : List String) : (dedupKeepFirst l).Nodup := by
  unfold dedupKeepFirst
  have henum : l.enum.Nodup :=
    List.Nodup.of_map Prod.fst (List.nodup_enum_map_fst l)
  refine List.Nodup.map_on ?_ (henum.filter _)
  intro p hp q hq hpq
  have hp2 := (List.mem_filter.1 hp).2
  have hq2 := (List.mem_filter.1 hq).2
  have hp3 : l.indexOf p.2 = p.1 := by simpa using hp2
  have hq3 : l.indexOf q.2 = q.1 := by simpa using hq2
  have : p.1 = q.1 := by rw [← hp3, ← hq3, hpq]
  exact Prod.ext this hpq

theorem mem_deriveNames {x : String} {c : FeatureCollection} :
    x ∈ deriveNames c ↔ x ≠ "" ∧ some x ∈ rawNames c := by
  unfold deriveNames
  rw [(List.perm_insertionSort localeLe _).mem_iff, mem_dedupKeepFirst,
    mem_truthyNames]

theorem nodup_deriveNames (c : FeatureCollection) : (deriveNames c).Nodup :=
  ((List.perm_insertionSort localeLe _).nodup_iff).2
    (nodup_dedupKeepFirst (truthyNames c))

theorem sorted_deriveNames (c : FeatureCollection) :
    (deriveNames c).Sorted localeLe :=
  List.sorted_insertionSort localeLe _

/-! ## Frame lemmas: which state fields each phase can touch -/

theorem debounceRender_eq (p : String) (s : AppState) :
    debounceRender p s =
      { s with debounceTimer :=
          if s.selectedConservancy ≠ p then
            (if s.mapReady ∧ s.selectedConservancy ≠ "" then
              some s.selectedConservancy
            else none)
          else s.debounceTimer } := by
  unfold debounceRender
  split <;> rfl

@[simp] theorem debounceRender_styles (p : String) (s : AppState) :
    (debounceRender p s).styles = s.styles := by
  rw [debounceRender_eq]

@[simp] theorem debounceRender_selectedLayer (p : String) (s : AppState) :
    (debounceRender p s).selectedLayer = s.selectedLayer := by
  rw [debounceRender_eq]

@[simp] theorem debounceRender_selectedConservancy (p : String) (s : AppState) :
    (debounceRender p s).selectedConservancy = s.selectedConservancy := by
  rw [debounceRender_eq]

@[simp] theorem debounceRender_mapReady (p : String) (s : AppState) :
    (debounceRender p s).mapReady = s.mapReady := by
  rw [debounceRender_eq]

@[simp] theorem debounceRender_layerMap (p : String) (s : AppState) :
    (debounceRender p s).layerMap = s.layerMap := by
  rw [debounceRender_eq]

@[simp] theorem debounceRender_panel (p : String) (s : AppState) :
    (debounceRender p s).panel = s.panel := by
  rw [debounceRender_eq]

@[simp] theorem debounceRender_conservancyData (p : String) (s : AppState) :
    (debounceRender p s).conservancyData = s.conservancyData := by
  rw [debounceRender_eq]

@[simp] theorem debounceRender_conservancyList (p : String) (s : AppState) :
    (debounceRender p s).conservancyList = s.conservancyList := by
  rw [debounceRender_eq]

@[simp] theorem debounceRender_invalidateTimers (p : String) (s : AppState) :
    (debounceRender p s).invalidateTimers = s.invalidateTimers := by
  rw [debounceRender_eq]

@[simp] theorem panelRender_styles (b p : String) (s : AppState) :
    (panelRender b p s).1.styles = s.styles := by
  unfold panelRender
  split
  · rfl
  · split
    · rfl
    · split <;> rfl

@[simp] theorem panelRender_selectedLayer (b p : String) (s : AppState) :
    (panelRender b p s).1.selectedLayer = s.selectedLayer := by
  unfold panelRender
  split
  · rfl
  · split
    · rfl
    · split <;> rfl

@[simp] theorem panelRender_selectedConservancy (b p : String) (s : AppState) :
    (panelRender b p s).1.selectedConservancy = s.selectedConservancy := by
  unfold panelRender
  split
  · rfl
  · split
    · rfl
    · split <;> rfl

@[simp] theorem panelRender_mapReady (b p : String) (s : AppState) :
    (panelRender b p s).1.mapReady = s.mapReady := by
  unfold panelRender
  split
  · rfl
  · split
    · rfl
    · split <;> rfl

@[simp] theorem panelRender_layerMap (b p : String) (s : AppState) :
    (panelRender b p s).1.layerMap = s.layerMap := by
  unfold panelRender
  split
  · rfl
  · split
    · rfl
    · split <;> rfl

@[simp] theorem panelRender_debounceTimer (b p : String) (s : AppState) :
    (panelRender b p s).1.debounceTimer = s.debounceTimer := by
  unfold panelRender
  split
  · rfl
  · split
    · rfl
    · split <;> rfl

@[simp] theorem panelRender_conservancyData (b p : String) (s : AppState) :
    (panelRender b p s).1.conservancyData = s.conservancyData := by
  unfold panelRender
  split
  · rfl
  · split
    · rfl
    · split <;> rfl

@[simp] theorem panelRender_conservancyList (b p : String) (s : AppState) :
    (panelRender b p s).1.conservancyList = s.conservancyList := by
  unfold panelRender
  split
  · rfl
  · split
    · rfl
    · split <;> rfl

@[simp] theorem panelRender_invalidateTimers (b p : String) (s : AppState) :
    (panelRender b p s).1.invalidateTimers = s.invalidateTimers := by
  unfold panelRender
  split
  · rfl
  · split
    · rfl
    · split <;> rfl

/-- A mounted panel stays mounted through the render phase while the selection
is nonempty; with an empty selection the panel is unmounted. -/
theorem panelRender_panel_isSome (b p : String) (s : AppState)
    (h : s.selectedConservancy ≠ "") : (panelRender b p s).1.panel.isSome := by
  unfold panelRender
  rw [if_neg h]
  split <;> (try split) <;> simp_all

/-! ## Frame lemmas for the revert block and the composed render phase -/

@[simp] theorem revertSelectedLayer_selectedLayer (s : AppState) :
    (revertSelectedLayer s).selectedLayer = none := by
  unfold revertSelectedLayer
  split
  · rfl
  · rename_i h
    exact h

@[simp] theorem revertSelectedLayer_selectedConservancy (s : AppState) :
    (revertSelectedLayer s).selectedConservancy = s.selectedConservancy := by
  unfold revertSelectedLayer
  split <;> rfl

@[simp] theorem revertSelectedLayer_mapReady (s : AppState) :
    (revertSelectedLayer s).mapReady = s.mapReady := by
  unfold revertSelectedLayer
  split <;> rfl

@[simp] theorem revertSelectedLayer_layerMap (s : AppState) :
    (revertSelectedLayer s).layerMap = s.layerMap := by
  unfold revertSelectedLayer
  split <;> rfl

@[simp] theorem revertSelectedLayer_panel (s : AppState) :
    (revertSelectedLayer s).panel = s.panel := by
  unfold revertSelectedLayer
  split <;> rfl

@[simp] theorem revertSelectedLayer_debounceTimer (s : AppState) :
    (revertSelectedLayer s).debounceTimer = s.debounceTimer := by
  unfold revertSelectedLayer
  split <;> rfl

@[simp] theorem revertSelectedLayer_conservancyData (s : AppState) :
    (revertSelectedLayer s).conservancyData = s.conservancyData := by
  unfold revertSelectedLayer
  split <;> rfl

@[simp] theorem revertSelectedLayer_conservancyList (s : AppState) :
    (revertSelectedLayer s).conservancyList = s.conservancyList := by
  unfold revertSelectedLayer
  split <;> rfl

@[simp] theorem revertSelectedLayer_invalidateTimers (s : AppState) :
    (revertSelectedLayer s).invalidateTimers = s.invalidateTimers := by
  unfold revertSelectedLayer
  split <;> rfl

theorem revertSelectedLayer_styles (s : AppState) :
    (revertSelectedLayer s).styles = revertedStyles s := by
  cases h : s.selectedLayer <;>
    simp [revertSelectedLayer, revertedStyles, h]

@[simp] theorem runRender_styles (b p : String) (s : AppState) :
    (runRender b p s).1.styles = s.styles := by
  unfold runRender
  rw [panelRender_styles, debounceRender_styles]

@[simp] theorem runRender_selectedLayer (b p : String) (s : AppState) :
    (runRender b p s).1.selectedLayer = s.selectedLayer := by
  unfold runRender
  rw [panelRender_selectedLayer, debounceRender_selectedLayer]

@[simp] theorem runRender_selectedConservancy (b p : String) (s : AppState) :
    (runRender b p s).1.selectedConservancy = s.selectedConservancy := by
  unfold runRender
  rw [panelRender_selectedConservancy, debounceRender_selectedConservancy]

@[simp] theorem runRender_mapReady (b p : String) (s : AppState) :
    (runRender b p s).1.mapReady = s.mapReady := by
  unfold runRender
  rw [panelRender_mapReady, debounceRender_mapReady]

@[simp] theorem runRender_layerMap (b p : String) (s : AppState) :
    (runRender b p s).1.layerMap = s.layerMap := by
  unfold runRender
  rw [panelRender_layerMap, debounceRender_layerMap]

@[simp] theorem runRender_conservancyData (b p : String) (s : AppState) :
    (runRender b p s).1.conservancyData = s.conservancyData := by
  unfold runRender
  rw [panelRender_conservancyData, debounceRender_conservancyData]

@[simp] theorem runRender_conservancyList (b p : String) (s : AppState) :
    (runRender b p s).1.conservancyList = s.conservancyList := by
  unfold runRender
  rw [panelRender_conservancyList, debounceRender_conservancyList]

@[simp] theorem runRender_invalidateTimers (b p : String) (s : AppState) :
    (runRender b p s).1.invalidateTimers = s.invalidateTimers := by
  unfold runRender
  rw [panelRender_invalidateTimers, debounceRender_invalidateTimers]

theorem panelRender_empty (b p : String) (s : AppState)
    (h : s.selectedConservancy = "") :
    panelRender b p s = ({ s with panel := none }, []) := by
  unfold panelRender
  rw [if_pos h]

theorem runRender_empty (b p : String) (s : AppState)
    (h : s.selectedConservancy = "") :
    (runRender b p s).1.panel = none ∧ (runRender b p s).2 = [] := by
  unfold runRender
  rw [panelRender_empty _ _ _ (by simp [h])]
  exact ⟨rfl, rfl⟩

/-- A render whose selection prop did not change (and stays nonempty, panel
mounted) is a no-op: no state change and no effects. -/
theorem runRender_stable (b : String) (t : AppState)
    (hne : t.selectedConservancy ≠ "") (hs : t.panel.isSome = true) :
    runRender b t.selectedConservancy t = (t, []) := by
  unfold runRender
  have hd : debounceRender t.selectedConservancy t = t := by
    unfold debounceRender
    rw [if_neg (fun hc => hc rfl)]
  rw [hd]
  unfold panelRender
  rw [if_neg hne]
  split
  · rename_i h
    rw [h] at hs
    simp at hs
  · rw [if_neg (fun hc => hc rfl)]

/-- The panel mounts (or stays mounted) through a render whose selection is
nonempty. -/
theorem runRender_panel_isSome (b p : String) (s : AppState)
    (h : s.selectedConservancy ≠ "") : (runRender b p s).1.panel.isSome := by
  unfold runRender
  exact panelRender_panel_isSome _ _ _ (by simp [h])

/-! ## JS Map lemmas -/

theorem mapGet_mapSet_self (m : LayerMap) (k : String) (v : Nat) :
    mapGet (mapSet m k v) k = some v := by
  unfold mapGet mapSet
  split
  · rename_i hany
    rw [List.find?_map]
    have hpred : ((fun p : String × Nat => p.1 == k) ∘
        (fun p : String × Nat => if p.1 == k then (k, v) else p))
        = fun p : String × Nat => p.1 == k := by
      funext p
      by_cases hp : (p.1 == k) = true
      · have hpk : p.1 = k := by simpa using hp
        simp [hpk]
      · have hpk : ¬ p.1 = k := by simpa using hp
        simp [hpk]
    rw [hpred]
    rcases List.any_eq_true.1 hany with ⟨q, hq, hqk⟩
    cases hfind : m.find? (fun p => p.1 == k) with
    | none =>
        rw [List.find?_eq_none] at hfind
        exact absurd hqk (hfind q hq)
    | some q2 =>
        have hq2 := List.find?_some hfind
        have hq2e : q2.1 = k := by simpa using hq2
        simp [hq2e]
  · rename_i hany
    have h1 : m.find? (fun p => p.1 == k) = none := by
      rw [List.find?_eq_none]
      intro x hx hpx
      exact hany (List.any_eq_true.2 ⟨x, hx, hpx⟩)
    simp [h1]

theorem mapGet_mapSet_ne (m : LayerMap) (k k2 : String) (v : Nat)
    (h : ¬ k2 = k) : mapGet (mapSet m k v) k2 = mapGet m k2 := by
  unfold mapGet mapSet
  split
  · rw [List.find?_map]
    have hpred : ((fun p : String × Nat => p.1 == k2) ∘
        (fun p : String × Nat => if p.1 == k then (k, v) else p))
        = fun p : String × Nat => p.1 == k2 := by
      funext p
      by_cases hp : (p.1 == k) = true
      · have hpk : p.1 = k := by simpa using hp
        simp [hpk, h]
      · have hpk : ¬ p.1 = k := by simpa using hp
        simp [hpk]
    rw [hpred]
    cases hfind : m.find? (fun p => p.1 == k2) with
    | none => rfl
    | some q =>
        have hq := List.find?_some hfind
        have hq2 : q.1 = k2 := by simpa using hq
        have hqk : ¬ q.1 = k := by
          rw [hq2]
          exact h
        simp [hqk]
  · rw [List.find?_append]
    have h2 : [(k, v)].find? (fun p => p.1 == k2) = none := by
      simp
      exact fun hc => h hc.symm
    rw [h2]
    cases m.find? (fun p => p.1 == k2) <;> rfl

/-- onEachFeature registers a truthy NAME under both the exact key and the
normalized key, each resolving to the feature layer. -/
theorem registerFeature_keys (m : LayerMap) (i : Nat) (n : String)
    (hn : ¬ n = "") :
    mapGet (registerFeature m i ⟨some ⟨some n⟩⟩) n = some i ∧
    mapGet (registerFeature m i ⟨some ⟨some n⟩⟩) (normalizeName n) = some i := by
  unfold registerFeature
  have hfn : featureNameStr ⟨some ⟨some n⟩⟩ = n := rfl
  rw [hfn, if_neg hn]
  refine ⟨?_, mapGet_mapSet_self _ _ _⟩
  by_cases hnn : normalizeName n = n
  · rw [hnn, mapGet_mapSet_self]
  · rw [mapGet_mapSet_ne _ _ _ _ (fun hc => hnn hc.symm), mapGet_mapSet_self]

/-! ## Invalidate-size timers only accumulate -/

theorem selectConservancyByName_invalidateTimers_le (s : AppState)
    (name : String) (u : Bool) :
    s.invalidateTimers ≤ (selectConservancyByName s name u).1.invalidateTimers := by
  obtain ⟨cd, cl, sel, mr, sl, st, lm, pn, dt, it⟩ := s
  cases u <;> cases mr <;> cases sl <;> by_cases hn : name = "" <;>
      cases hr : resolveLayer lm name <;>
    simp [selectConservancyByName, applySelectUpdate, revertSelectedLayer,
      highlightLayer, hn, hr]

/-! ## The highlight invariant -/

theorem atMostOne_of_highlightInv {s : AppState} (h : HighlightInv s) :
    AtMostOneHighlight s := by
  intro i j hi hj
  have h2 := h j hj
  rw [h i hi] at h2
  exact Option.some.inj h2

theorem noHighlight_of_none {styles : List LayerStyle} {sl : Option Nat}
    (hinv : ∀ i : Nat, styles[i]? = some LayerStyle.highlightStyle → sl = some i)
    (hn : sl = none) : NoHighlight styles := by
  intro i hcon
  rw [hinv i hcon] at hn
  simp at hn

theorem noHighlight_set_conservancy {styles : List LayerStyle} {sl : Option Nat}
    {j : Nat}
    (hinv : ∀ i : Nat, styles[i]? = some LayerStyle.highlightStyle → sl = some i)
    (hj : sl = some j) :
    NoHighlight (styles.set j LayerStyle.conservancyStyle) := by
  intro i
  rw [List.getElem?_set]
  split
  · split <;> simp
  · rename_i hne
    intro hcon
    have h2 := hinv i hcon
    rw [hj] at h2
    exact hne (Option.some.inj h2)

theorem inv_set_highlight {styles : List LayerStyle} (h : NoHighlight styles)
    (k : Nat) :
    ∀ i : Nat,
      (styles.set k LayerStyle.highlightStyle)[i]? = some LayerStyle.highlightStyle →
      (some k : Option Nat) = some i := by
  intro i hcon
  rw [List.getElem?_set] at hcon
  split at hcon
  · rename_i hk
    exact congrArg some hk
  · exact absurd hcon (h i)

/-- Reverting leaves no highlighted layer and no back-reference. -/
theorem revertSelectedLayer_clears {s : AppState} (hinv : HighlightInv s) :
    (revertSelectedLayer s).selectedLayer = none ∧
    NoHighlight (revertSelectedLayer s).styles := by
  unfold revertSelectedLayer
  cases hsl : s.selectedLayer with
  | none => exact ⟨hsl, noHighlight_of_none hinv hsl⟩
  | some j => exact ⟨rfl, noHighlight_set_conservancy hinv hsl⟩

theorem applySelectUpdate_inv {s : AppState} (name : String) (u : Bool)
    (hinv : HighlightInv s) : HighlightInv (applySelectUpdate s name u) := by
  unfold applySelectUpdate
  split
  · exact fun i hi => hinv i hi
  · exact hinv

theorem highlightLayer_inv {s : AppState} (h : NoHighlight s.styles) (k : Nat) :
    HighlightInv (highlightLayer s k).1 :=
  fun i hi => inv_set_highlight h k i hi

theorem selectConservancyByName_inv {s : AppState} (name : String) (u : Bool)
    (hinv : HighlightInv s) :
    HighlightInv (selectConservancyByName s name u).1 := by
  unfold selectConservancyByName
  dsimp only
  have hinv1 := applySelectUpdate_inv name u hinv
  have hc := revertSelectedLayer_clears hinv1
  split
  · exact hinv1
  · split
    · exact fun i hi => absurd hi (hc.2 i)
    · split
      · exact highlightLayer_inv hc.2 _
      · exact fun i hi => absurd hi (hc.2 i)

theorem runRender_inv {s : AppState} (b p : String) (hinv : HighlightInv s) :
    HighlightInv (runRender b p s).1 := by
  intro i hi
  unfold runRender at hi ⊢
  rw [panelRender_styles, debounceRender_styles] at hi
  rw [panelRender_selectedLayer, debounceRender_selectedLayer]
  exact hinv i hi

/-- Every event preserves the invariant. -/
theorem step_inv (env : Env) (s : AppState) (e : Event)
    (hinv : HighlightInv s) : HighlightInv (step env s e).1 := by
  cases e with
  | clickLayer i =>
      simp only [step]
      split
      · exact hinv
      · exact runRender_inv _ _ (selectConservancyByName_inv _ _ hinv)
  | dropdownSelect name =>
      simp only [step]
      split
      · exact runRender_inv _ _
          (selectConservancyByName_inv _ _ (fun i hi => hinv i hi))
      · exact runRender_inv _ _ (fun i hi => hinv i hi)
  | tabClick tabId =>
      simp only [step]
      split
      · exact hinv
      · split
        · split
          · exact hinv
          · exact fun i hi => hinv i hi
        · exact hinv
  | panelClose =>
      simp only [step]
      split
      · exact hinv
      · have hinv2 : HighlightInv { s with selectedConservancy := "" } :=
          fun i hi => hinv i hi
        have hc := revertSelectedLayer_clears hinv2
        exact runRender_inv _ _ (fun i hi => absurd hi (hc.2 i))
  | debounceFire =>
      simp only [step]
      split
      · exact hinv
      · exact selectConservancyByName_inv _ _ (fun i hi => hinv i hi)
  | invalidateFire =>
      simp only [step]
      split
      · exact hinv
      · exact fun i hi => hinv i hi
  | chartResponse o =>
      simp only [step]
      split
      · exact hinv
      · exact fun i hi => hinv i hi

theorem run_inv (env : Env) (events : List Event) (s : AppState)
    (hinv : HighlightInv s) : HighlightInv (run env events s) := by
  induction events generalizing s with
  | nil => exact hinv
  | cons e es ih => exact ih _ (step_inv env s e hinv)

theorem initState_inv (env : Env) : HighlightInv (initState env) := by
  intro i hi
  unfold initState at hi
  dsimp only at hi
  rw [List.getElem?_map] at hi
  cases h : (env.collection.features)[i]? with
  | none => rw [h] at hi; simp at hi
  | some f => rw [h] at hi; simp at hi

theorem selectConservancyByName_frame (s : AppState) (name : String)
    (u : Bool) :
    (selectConservancyByName s name u).1.conservancyData = s.conservancyData ∧
    (selectConservancyByName s name u).1.conservancyList = s.conservancyList ∧
    (selectConservancyByName s name u).1.mapReady = s.mapReady ∧
    (selectConservancyByName s name u).1.layerMap = s.layerMap ∧
    (selectConservancyByName s name u).1.panel = s.panel ∧
    (selectConservancyByName s name u).1.debounceTimer = s.debounceTimer ∧
    (selectConservancyByName s name u).1.selectedConservancy
      = (if u then name else s.selectedConservancy) := by
  obtain ⟨cd, cl, sel, mr, sl, st, lm, pn, dt, it⟩ := s
  cases u <;> cases mr <;> cases sl <;>
      by_cases hn : name = "" <;>
      cases hr : resolveLayer lm name <;>
    simp [selectConservancyByName, applySelectUpdate, revertSelectedLayer,
      highlightLayer, hn, hr]

/-- The `updateState` variant of `selectConservancyByName` first writes the
selection and then behaves exactly like the plain variant on the updated
state (the dropdown path writes the selection separately before calling it,
so the click path and the dropdown path coincide). -/
theorem selectConservancyByName_true_eq (s : AppState) (name : String) :
    selectConservancyByName s name true =
      (if s.mapReady then
        selectConservancyByName { s with selectedConservancy := name } name false
      else ({ s with selectedConservancy := name }, [])) := by
  cases hm : s.mapReady <;>
    simp [selectConservancyByName, applySelectUpdate, hm]

theorem debounceRender_timer (p : String) (t : AppState)
    (hne : ¬ t.selectedConservancy = p) :
    (debounceRender p t).debounceTimer =
      if t.mapReady ∧ ¬ t.selectedConservancy = "" then
        some t.selectedConservancy
      else none := by
  unfold debounceRender
  rw [if_pos hne]

theorem step_dropdown_selectedConservancy (env : Env) (s : AppState)
    (name : String) :
    (step env s (Event.dropdownSelect name)).1.selectedConservancy = name := by
  simp only [step]
  dsimp only
  rw [runRender_selectedConservancy]
  split
  · have h := (selectConservancyByName_frame
      { s with selectedConservancy := name } name false).2.2.2.2.2.2
    simpa using h
  · rfl

theorem step_invalidateTimers_le (env : Env) (s : AppState) (e : Event)
    (he : ¬ e = Event.invalidateFire) :
    s.invalidateTimers ≤ (step env s e).1.invalidateTimers := by
  cases e with
  | clickLayer i =>
      simp only [step]
      split
      · exact le_refl _
      · rw [runRender_invalidateTimers]
        exact selectConservancyByName_invalidateTimers_le s _ true
  | dropdownSelect name =>
      simp only [step]
      dsimp only
      rw [runRender_invalidateTimers]
      split
      · exact selectConservancyByName_invalidateTimers_le
          { s with selectedConservancy := name } name false
      · exact le_refl _
  | tabClick tabId =>
      simp only [step]
      split
      · exact le_refl _
      · split
        · split
          · exact le_refl _
          · exact le_refl _
        · exact le_refl _
  | panelClose =>
      simp only [step]
      split
      · exact le_refl _
      · rw [runRender_invalidateTimers, revertSelectedLayer_invalidateTimers]
  | debounceFire =>
      simp only [step]
      split
      · exact le_refl _
      · exact selectConservancyByName_invalidateTimers_le
          { s with debounceTimer := none } _ false
  | invalidateFire => exact absurd rfl he
  | chartResponse o =>
      simp only [step]
      split
      · exact le_refl _
      · exact le_refl _

/-! ## Claims -/

/-- C1, counterexample: the claim demands that the derived region name list
contain each distinct NAME property value exactly once; the collection whose
single feature has the NAME value `""` refutes it, because `.filter(Boolean)`
drops the empty string, leaving the derived list empty. -/
theorem claim_C1_counterexample :
    some "" ∈ rawNames ⟨[⟨some ⟨some ""⟩⟩]⟩ ∧
    ¬ "" ∈ deriveNames ⟨[⟨some ⟨some ""⟩⟩]⟩ ∧
    deriveNames ⟨[⟨some ⟨some ""⟩⟩]⟩ = [] := by
  decide

/-- C1, amended: for every loaded boundary collection, the derived region name
list contains each distinct truthy (nonempty, present) NAME value exactly once
(case-sensitive exact match for deduplication, membership iff plus no
duplicates) and is sorted by the modelled locale-aware comparison; in
particular, for a collection with feature names B, a, C the derived list is
exactly [a, B, C]. -/
theorem claim_C1 (c : FeatureCollection) :
    (∀ x : String, x ∈ deriveNames c ↔ (¬ x = "" ∧ some x ∈ rawNames c)) ∧
    (deriveNames c).Nodup ∧
    (deriveNames c).Sorted localeLe ∧
    deriveNames ⟨[⟨some ⟨some "B"⟩⟩, ⟨some ⟨some "a"⟩⟩, ⟨some ⟨some "C"⟩⟩]⟩
      = ["a", "B", "C"] :=
  ⟨fun _ => mem_deriveNames, nodup_deriveNames c, sorted_deriveNames c,
    by decide⟩

/-- Witness instantiating C1 at the sample collection. -/
theorem claim_C1_witness :
    (∀ x : String, x ∈ deriveNames sampleCollection ↔
        (¬ x = "" ∧ some x ∈ rawNames sampleCollection)) ∧
    (deriveNames sampleCollection).Nodup ∧
    (deriveNames sampleCollection).Sorted localeLe ∧
    deriveNames ⟨[⟨some ⟨some "B"⟩⟩, ⟨some ⟨some "a"⟩⟩, ⟨some ⟨some "C"⟩⟩]⟩
      = ["a", "B", "C"] :=
  claim_C1 sampleCollection

/-- C2: at every point of every event sequence from the post-startup state, at
most one map layer carries the highlight style (the handlers always revert the
previously highlighted layer before highlighting a new one, captured by the
inductive invariant `HighlightInv`). -/
theorem claim_C2 (env : Env) (events : List Event) :
    AtMostOneHighlight (run env events (initState env)) :=
  atMostOne_of_highlightInv (run_inv env events _ (initState_inv env))

/-- Witness instantiating C2 on a concrete interaction sequence. -/
theorem claim_C2_witness :
    AtMostOneHighlight (run sampleEnv
      [Event.clickLayer 0, Event.dropdownSelect "Naapu", Event.panelClose,
       Event.dropdownSelect "  sera   PLAINS", Event.debounceFire]
      (initState sampleEnv)) :=
  claim_C2 sampleEnv _

/-- C4: a chart fetch that ends in failure — non-success HTTP status or a
parse failure, which the single catch handler treats identically — leaves the
panel with the error flag set, loading cleared and no figure stored, so the
data-not-found message is rendered and no chart is. -/
theorem claim_C4 (baseUrl name : String) (ps : PanelState)
    (hn : ¬ name = "") :
    applyFetchOutcome (panelFetchEffect baseUrl name ps).1 FetchOutcome.httpFailure
      = applyFetchOutcome (panelFetchEffect baseUrl name ps).1 FetchOutcome.parseFailure ∧
    (applyFetchOutcome (panelFetchEffect baseUrl name ps).1 FetchOutcome.httpFailure).error
      = true ∧
    (applyFetchOutcome (panelFetchEffect baseUrl name ps).1 FetchOutcome.httpFailure).loading
      = false ∧
    (applyFetchOutcome (panelFetchEffect baseUrl name ps).1 FetchOutcome.httpFailure).figure
      = none ∧
    showsDataNotFound
      (applyFetchOutcome (panelFetchEffect baseUrl name ps).1 FetchOutcome.httpFailure)
      = true ∧
    showsChart
      (applyFetchOutcome (panelFetchEffect baseUrl name ps).1 FetchOutcome.httpFailure)
      = false := by
  unfold panelFetchEffect
  rw [if_neg hn]
  dsimp only
  split <;>
    simp [applyFetchOutcome, fetchStart, showsDataNotFound, showsChart]

/-- Witness instantiating C4 at a concrete fetch. -/
theorem claim_C4_witness :
    ¬ "Naapu" = "" ∧
    (applyFetchOutcome (panelFetchEffect "/" "Naapu" initialPanelState).1
        FetchOutcome.httpFailure
      = applyFetchOutcome (panelFetchEffect "/" "Naapu" initialPanelState).1
        FetchOutcome.parseFailure ∧
    (applyFetchOutcome (panelFetchEffect "/" "Naapu" initialPanelState).1
        FetchOutcome.httpFailure).error = true ∧
    (applyFetchOutcome (panelFetchEffect "/" "Naapu" initialPanelState).1
        FetchOutcome.httpFailure).loading = false ∧
    (applyFetchOutcome (panelFetchEffect "/" "Naapu" initialPanelState).1
        FetchOutcome.httpFailure).figure = none ∧
    showsDataNotFound (applyFetchOutcome
        (panelFetchEffect "/" "Naapu" initialPanelState).1
        FetchOutcome.httpFailure) = true ∧
    showsChart (applyFetchOutcome
        (panelFetchEffect "/" "Naapu" initialPanelState).1
        FetchOutcome.httpFailure) = false) :=
  ⟨by decide, claim_C4 "/" "Naapu" initialPanelState (by decide)⟩

/-- C5: layer resolution looks the name up exactly first and falls back to the
normalized key (trimmed, lowercased, whitespace collapsed) exactly when the
exact lookup misses; a registered truthy NAME is stored under both keys, so a
query that differs from a stored name only in case or whitespace (equal
normalized keys) and hits no exact key still resolves to that layer. -/
theorem claim_C5 (m m0 : LayerMap) (n q q0 : String) (i l : Nat)
    (hn : ¬ n = "")
    (hnorm : normalizeName q = normalizeName n)
    (hmiss : mapGet (registerFeature m i ⟨some ⟨some n⟩⟩) q = none ∨ q = n)
    (hexact : mapGet m0 q0 = some l) :
    resolveLayer (registerFeature m i ⟨some ⟨some n⟩⟩) q = some i ∧
    resolveLayer m0 q0 = some l := by
  have hkeys := registerFeature_keys m i n hn
  constructor
  · rcases hmiss with hm | hq
    · unfold resolveLayer
      rw [hm, hnorm]
      exact hkeys.2
    · subst hq
      unfold resolveLayer
      rw [hkeys.1]
  · unfold resolveLayer
    rw [hexact]

/-- Witness instantiating C5: a case- and whitespace-mangled query resolves to
the registered layer through the normalized key, and an exact hit resolves
directly. -/
theorem claim_C5_witness :
    (¬ "Sera Plains" = "" ∧
     normalizeName "  SERA   plains " = normalizeName "Sera Plains" ∧
     (mapGet (registerFeature [] 0 ⟨some ⟨some "Sera Plains"⟩⟩)
        "  SERA   plains " = none ∨ "  SERA   plains " = "Sera Plains") ∧
     mapGet [("x", 3)] "x" = some 3) ∧
    resolveLayer (registerFeature [] 0 ⟨some ⟨some "Sera Plains"⟩⟩)
      "  SERA   plains " = some 0 ∧
    resolveLayer [("x", 3)] "x" = some 3 :=
  ⟨⟨by decide, by decide, by decide, by decide⟩,
   claim_C5 [] [("x", 3)] "Sera Plains" "  SERA   plains " "x" 0 3
     (by decide) (by decide) (by decide) (by decide)⟩

/-- C3: switching the active tab to a different configured tab while a region
stays selected issues exactly one chart fetch, whose URL is the base-prefixed
path pattern figs/region/region-suffix.json (`chartUrl`) built from the fixed
suffix of the newly active tab — one of _GroundCover, _NDVI, _Rainfall — and
the panel enters the loading state on that tab. -/
theorem claim_C3 (env : Env) (s : AppState) (ps : PanelState) (t : TabCfg)
    (newId : String)
    (hpanel : s.panel = some ps)
    (hsel : ¬ s.selectedConservancy = "")
    (hfind : TAB_CONFIG.find? (fun tc => tc.id == newId) = some t)
    (hdiff : ¬ newId = ps.activeTabId) :
    (step env s (Event.tabClick newId)).2
      = [Effect.fetchChart (chartUrl env.baseUrl s.selectedConservancy t.suffix)] ∧
    (step env s (Event.tabClick newId)).1.selectedConservancy
      = s.selectedConservancy ∧
    (step env s (Event.tabClick newId)).1.panel
      = some (fetchStart { ps with activeTabId := newId }) ∧
    (t.suffix = "_GroundCover" ∨ t.suffix = "_NDVI" ∨ t.suffix = "_Rainfall") := by
  have hmem := List.mem_of_find?_eq_some hfind
  have hsuffix :
      t.suffix = "_GroundCover" ∨ t.suffix = "_NDVI" ∨ t.suffix = "_Rainfall" := by
    simp [TAB_CONFIG] at hmem
    rcases hmem with h | h | h <;> simp [h]
  simp only [step]
  rw [hpanel]
  dsimp only
  rw [hfind]
  simp only [Option.isSome_some, if_true, if_neg hdiff]
  unfold panelFetchEffect
  rw [if_neg hsel]
  dsimp only
  have hid : (fetchStart { ps with activeTabId := newId }).activeTabId = newId := rfl
  rw [hid, hfind]
  refine ⟨rfl, ?_, rfl, hsuffix⟩
  trivial

/-- Witness instantiating C3: from the sample selected state, clicking the
NDVI tab fetches exactly the NDVI chart of the selected region. -/
theorem claim_C3_witness :
    (sampleSelected.panel = some (fetchStart initialPanelState) ∧
     ¬ sampleSelected.selectedConservancy = "" ∧
     TAB_CONFIG.find? (fun tc => tc.id == "ndvi")
        = some ⟨"ndvi", "NDVI", "_NDVI"⟩ ∧
     ¬ "ndvi" = (fetchStart initialPanelState).activeTabId) ∧
    (step sampleEnv sampleSelected (Event.tabClick "ndvi")).2
      = [Effect.fetchChart (chartUrl sampleEnv.baseUrl
          sampleSelected.selectedConservancy "_NDVI")] ∧
    (step sampleEnv sampleSelected (Event.tabClick "ndvi")).1.selectedConservancy
      = sampleSelected.selectedConservancy ∧
    (step sampleEnv sampleSelected (Event.tabClick "ndvi")).1.panel
      = some (fetchStart { fetchStart initialPanelState with activeTabId := "ndvi" }) ∧
    ("_NDVI" = "_GroundCover" ∨ "_NDVI" = "_NDVI" ∨ "_NDVI" = "_Rainfall") :=
  ⟨⟨by decide, by decide, by decide, by decide⟩,
   claim_C3 sampleEnv sampleSelected (fetchStart initialPanelState)
     ⟨"ndvi", "NDVI", "_NDVI"⟩ "ndvi"
     (by decide) (by decide) (by decide) (by decide)⟩

/-- C6: from any state with a selected region, closing the panel empties the
selection, reverts the previously highlighted layer (if any) to the default
style, drops the back-reference, unmounts the panel, emits no effect at all —
in particular no fitBounds and no chart fetch — and leaves the boundary
collection, the name list and the name-to-layer map unchanged. -/
theorem claim_C6 (env : Env) (s : AppState)
    (hsel : ¬ s.selectedConservancy = "") :
    (step env s Event.panelClose).1.selectedConservancy = "" ∧
    (step env s Event.panelClose).1.selectedLayer = none ∧
    (step env s Event.panelClose).1.styles = revertedStyles s ∧
    (step env s Event.panelClose).1.panel = none ∧
    (step env s Event.panelClose).2 = [] ∧
    (step env s Event.panelClose).1.conservancyData = s.conservancyData ∧
    (step env s Event.panelClose).1.conservancyList = s.conservancyList ∧
    (step env s Event.panelClose).1.layerMap = s.layerMap := by
  simp only [step]
  rw [if_neg hsel]
  have hre := runRender_empty env.baseUrl s.selectedConservancy
      (revertSelectedLayer { s with selectedConservancy := "" }) (by simp)
  refine ⟨?_, ?_, ?_, hre.1, hre.2, ?_, ?_, ?_⟩
  · rw [runRender_selectedConservancy]
    simp
  · rw [runRender_selectedLayer]
    simp
  · rw [runRender_styles, revertSelectedLayer_styles]
    rfl
  · rw [runRender_conservancyData]
    simp
  · rw [runRender_conservancyList]
    simp
  · rw [runRender_layerMap]
    simp

/-- Witness instantiating C6 at the sample selected state. -/
theorem claim_C6_witness :
    ¬ sampleSelected.selectedConservancy = "" ∧
    ((step sampleEnv sampleSelected Event.panelClose).1.selectedConservancy = "" ∧
    (step sampleEnv sampleSelected Event.panelClose).1.selectedLayer = none ∧
    (step sampleEnv sampleSelected Event.panelClose).1.styles
      = revertedStyles sampleSelected ∧
    (step sampleEnv sampleSelected Event.panelClose).1.panel = none ∧
    (step sampleEnv sampleSelected Event.panelClose).2 = [] ∧
    (step sampleEnv sampleSelected Event.panelClose).1.conservancyData
      = sampleSelected.conservancyData ∧
    (step sampleEnv sampleSelected Event.panelClose).1.conservancyList
      = sampleSelected.conservancyList ∧
    (step sampleEnv sampleSelected Event.panelClose).1.layerMap
      = sampleSelected.layerMap) :=
  ⟨by decide, claim_C6 sampleEnv sampleSelected (by decide)⟩

/-- C10: every feature gets a click handler whether or not it has a truthy
NAME (the model defines a click transition for every layer index), and
clicking a layer whose properties carry no truthy NAME clears the selection:
the selected name becomes empty, the previously highlighted layer (if any) is
reverted, the back-reference is dropped, no layer is newly highlighted, the
panel unmounts, and no effect is emitted. -/
theorem claim_C10 (env : Env) (s : AppState) (i : Nat) (f : Feature)
    (p : FeatureProps)
    (hf : env.collection.features.get? i = some f)
    (hp : f.properties = some p)
    (hname : p.NAME = none ∨ p.NAME = some "")
    (hready : s.mapReady = true) :
    (step env s (Event.clickLayer i)).1.selectedConservancy = "" ∧
    (step env s (Event.clickLayer i)).1.selectedLayer = none ∧
    (step env s (Event.clickLayer i)).1.styles = revertedStyles s ∧
    (step env s (Event.clickLayer i)).1.panel = none ∧
    (step env s (Event.clickLayer i)).2 = [] := by
  have hfn : featureNameStr f = "" := by
    rcases hname with h | h <;> simp [featureNameStr, hp, h]
  simp only [step]
  rw [hf]
  dsimp only
  rw [hfn]
  obtain ⟨cd, cl, sel, mr, sl, st, lm, pn, dt, it⟩ := s
  have hmr : mr = true := hready
  subst hmr
  by_cases hs : sel = ""
  · subst hs
    cases sl <;>
      simp [selectConservancyByName, applySelectUpdate, revertSelectedLayer,
        revertedStyles, runRender, debounceRender, panelRender]
  · have hs2 : ¬ "" = sel := fun hc => hs hc.symm
    cases sl <;>
      simp [selectConservancyByName, applySelectUpdate, revertSelectedLayer,
        revertedStyles, runRender, debounceRender, panelRender, hs, hs2]

/-- Witness instantiating C10: clicking the empty-named sample feature from
the sample selected state clears everything. -/
theorem claim_C10_witness :
    (sampleEnv.collection.features.get? 2 = some ⟨some ⟨some ""⟩⟩ ∧
     (⟨some ⟨some ""⟩⟩ : Feature).properties = some ⟨some ""⟩ ∧
     ((⟨some ""⟩ : FeatureProps).NAME = none ∨
        (⟨some ""⟩ : FeatureProps).NAME = some "") ∧
     sampleSelected.mapReady = true) ∧
    (step sampleEnv sampleSelected (Event.clickLayer 2)).1.selectedConservancy
      = "" ∧
    (step sampleEnv sampleSelected (Event.clickLayer 2)).1.selectedLayer
      = none ∧
    (step sampleEnv sampleSelected (Event.clickLayer 2)).1.styles
      = revertedStyles sampleSelected ∧
    (step sampleEnv sampleSelected (Event.clickLayer 2)).1.panel = none ∧
    (step sampleEnv sampleSelected (Event.clickLayer 2)).2 = [] :=
  ⟨⟨by decide, by decide, by decide, by decide⟩,
   (claim_C10 sampleEnv sampleSelected 2 ⟨some ⟨some ""⟩⟩ ⟨some ""⟩
     (by decide) (by decide) (by decide) (by decide)).1,
   (claim_C10 sampleEnv sampleSelected 2 ⟨some ⟨some ""⟩⟩ ⟨some ""⟩
     (by decide) (by decide) (by decide) (by decide)).2.1,
   (claim_C10 sampleEnv sampleSelected 2 ⟨some ⟨some ""⟩⟩ ⟨some ""⟩
     (by decide) (by decide) (by decide) (by decide)).2.2.1,
   (claim_C10 sampleEnv sampleSelected 2 ⟨some ⟨some ""⟩⟩ ⟨some ""⟩
     (by decide) (by decide) (by decide) (by decide)).2.2.2.1,
   (claim_C10 sampleEnv sampleSelected 2 ⟨some ⟨some ""⟩⟩ ⟨some ""⟩
     (by decide) (by decide) (by decide) (by decide)).2.2.2.2⟩

/-- C7: for every feature layer with a truthy NAME, clicking the layer and
selecting the same name from the dropdown produce literally the same next
state and the same emitted effects; in that state the selected name is the
clicked region and the panel is mounted on it. -/
theorem claim_C7 (env : Env) (s : AppState) (i : Nat) (f : Feature)
    (hf : env.collection.features.get? i = some f)
    (hname : ¬ featureNameStr f = "") :
    step env s (Event.clickLayer i)
      = step env s (Event.dropdownSelect (featureNameStr f)) ∧
    (step env s (Event.clickLayer i)).1.selectedConservancy
      = featureNameStr f ∧
    (step env s (Event.clickLayer i)).1.panel.isSome = true := by
  have heq : step env s (Event.clickLayer i)
      = step env s (Event.dropdownSelect (featureNameStr f)) := by
    simp only [step]
    rw [hf]
    dsimp only
    rw [selectConservancyByName_true_eq]
  have hsel := step_dropdown_selectedConservancy env s (featureNameStr f)
  have hpan : (step env s
      (Event.dropdownSelect (featureNameStr f))).1.panel.isSome = true := by
    simp only [step]
    dsimp only
    apply runRender_panel_isSome
    split
    · intro hc
      have h := (selectConservancyByName_frame
        { s with selectedConservancy := featureNameStr f }
        (featureNameStr f) false).2.2.2.2.2.2
      have h2 : (selectConservancyByName
          { s with selectedConservancy := featureNameStr f }
          (featureNameStr f) false).1.selectedConservancy
          = featureNameStr f := by
        simpa using h
      rw [h2] at hc
      exact hname hc
    · exact hname
  refine ⟨heq, ?_, ?_⟩
  · rw [heq]
    exact hsel
  · rw [heq]
    exact hpan

/-- Witness instantiating C7 at the first sample feature. -/
theorem claim_C7_witness :
    (sampleEnv.collection.features.get? 0 = some ⟨some ⟨some "Sera Plains"⟩⟩ ∧
     ¬ featureNameStr ⟨some ⟨some "Sera Plains"⟩⟩ = "") ∧
    (step sampleEnv (initState sampleEnv) (Event.clickLayer 0)
      = step sampleEnv (initState sampleEnv)
          (Event.dropdownSelect (featureNameStr ⟨some ⟨some "Sera Plains"⟩⟩)) ∧
    (step sampleEnv (initState sampleEnv)
        (Event.clickLayer 0)).1.selectedConservancy
      = featureNameStr ⟨some ⟨some "Sera Plains"⟩⟩ ∧
    (step sampleEnv (initState sampleEnv)
        (Event.clickLayer 0)).1.panel.isSome = true) :=
  ⟨⟨by decide, by decide⟩,
   claim_C7 sampleEnv (initState sampleEnv) 0 ⟨some ⟨some "Sera Plains"⟩⟩
     (by decide) (by decide)⟩

/-- C9, counterexample: after selecting Naapu, one viewport-size
recalculation timeout and the debounce timeout are pending; clearing the
selection — a relevant state change arriving before either delay elapses —
clears the debounce timeout without rescheduling it, while the pending
invalidate-size timeout survives untouched, refuting the claim that both
timing behaviors are cancelled and rescheduled on relevant state changes. -/
theorem claim_C9_counterexample :
    (run sampleEnv [Event.dropdownSelect "Naapu"]
        (initState sampleEnv)).invalidateTimers = 1 ∧
    (run sampleEnv [Event.dropdownSelect "Naapu"]
        (initState sampleEnv)).debounceTimer = some "Naapu" ∧
    (run sampleEnv [Event.dropdownSelect "Naapu", Event.dropdownSelect ""]
        (initState sampleEnv)).invalidateTimers = 1 ∧
    (run sampleEnv [Event.dropdownSelect "Naapu", Event.dropdownSelect ""]
        (initState sampleEnv)).debounceTimer = none := by
  decide

/-- C9, amended: both delays are the fixed constant 300 ms; the debounce
timeout is cleared whenever the selection changes and rescheduled exactly
when the new selection is nonempty with the map ready (closing the panel
clears it without rescheduling); the viewport-size recalculation timeout is
never cancelled — no event other than its own firing decreases the number of
pending invalidate-size timeouts. -/
theorem claim_C9 (env : Env) (s : AppState) (name : String) (e : Event)
    (hchange : ¬ name = s.selectedConservancy)
    (hclose : ¬ s.selectedConservancy = "")
    (he : ¬ e = Event.invalidateFire) :
    ((step env s (Event.dropdownSelect name)).1.debounceTimer
      = if s.mapReady ∧ ¬ name = "" then some name else none) ∧
    (step env s Event.panelClose).1.debounceTimer = none ∧
    s.invalidateTimers ≤ (step env s e).1.invalidateTimers ∧
    DEBOUNCE_MS = 300 ∧ INVALIDATE_MS = 300 := by
  refine ⟨?_, ?_, step_invalidateTimers_le env s e he, rfl, rfl⟩
  · simp only [step]
    dsimp only
    unfold runRender
    rw [panelRender_debounceTimer]
    split
    · have hfr := selectConservancyByName_frame
        { s with selectedConservancy := name } name false
      have hsel2 : (selectConservancyByName
          { s with selectedConservancy := name } name
          false).1.selectedConservancy = name := by
        simpa using hfr.2.2.2.2.2.2
      have hmr2 : (selectConservancyByName
          { s with selectedConservancy := name } name false).1.mapReady
          = s.mapReady := hfr.2.2.1
      rw [debounceRender_timer _ _ (by rw [hsel2]; exact hchange)]
      simp only [hsel2, hmr2]
    · rw [debounceRender_timer _ _ hchange]
  · simp only [step]
    rw [if_neg hclose]
    unfold runRender
    rw [panelRender_debounceTimer]
    have ht : (revertSelectedLayer
        { s with selectedConservancy := "" }).selectedConservancy = "" := by
      rw [revertSelectedLayer_selectedConservancy]
    rw [debounceRender_timer _ _ (by rw [ht]; exact fun hc => hclose hc.symm)]
    simp [ht]

/-- Witness instantiating C9 at the sample selected state. -/
theorem claim_C9_witness :
    (¬ "Sera Plains" = sampleSelected.selectedConservancy ∧
     ¬ sampleSelected.selectedConservancy = "" ∧
     ¬ Event.debounceFire = Event.invalidateFire) ∧
    ((step sampleEnv sampleSelected
        (Event.dropdownSelect "Sera Plains")).1.debounceTimer
      = if sampleSelected.mapReady ∧ ¬ "Sera Plains" = "" then
          some "Sera Plains"
        else none) ∧
    (step sampleEnv sampleSelected Event.panelClose).1.debounceTimer = none ∧
    sampleSelected.invalidateTimers
      ≤ (step sampleEnv sampleSelected Event.debounceFire).1.invalidateTimers ∧
    DEBOUNCE_MS = 300 ∧ INVALIDATE_MS = 300 :=
  ⟨⟨by decide, by decide, by decide⟩,
   claim_C9 sampleEnv sampleSelected "Sera Plains" Event.debounceFire
     (by decide) (by decide) (by decide)⟩

/-- C8: selecting the same name from the dropdown twice in succession is
idempotent — after the second selection the highlighted layer, every layer
style, the selected name and the whole panel state (active tab, fetched
figure, loading and error flags) equal what they were after the first. -/
theorem claim_C8 (env : Env) (s : AppState) (name : String) :
    ((step env (step env s (Event.dropdownSelect name)).1
        (Event.dropdownSelect name)).1.selectedLayer
      = (step env s (Event.dropdownSelect name)).1.selectedLayer) ∧
    ((step env (step env s (Event.dropdownSelect name)).1
        (Event.dropdownSelect name)).1.styles
      = (step env s (Event.dropdownSelect name)).1.styles) ∧
    ((step env (step env s (Event.dropdownSelect name)).1
        (Event.dropdownSelect name)).1.selectedConservancy
      = (step env s (Event.dropdownSelect name)).1.selectedConservancy) ∧
    ((step env (step env s (Event.dropdownSelect name)).1
        (Event.dropdownSelect name)).1.panel
      = (step env s (Event.dropdownSelect name)).1.panel) := by
  obtain ⟨cd, cl, sel, mr, sl, st, lm, pn, dt, it⟩ := s
  by_cases hn : name = ""
  · subst hn
    by_cases hs : sel = ""
    · subst hs
      cases mr <;> cases sl <;>
        simp [step, selectConservancyByName, applySelectUpdate,
          revertSelectedLayer, highlightLayer, runRender, debounceRender,
          panelRender, List.set_set]
    · have hs2 : ¬ "" = sel := fun hc => hs hc.symm
      cases mr <;> cases sl <;>
        simp [step, selectConservancyByName, applySelectUpdate,
          revertSelectedLayer, highlightLayer, runRender, debounceRender,
          panelRender, hs, hs2, List.set_set]
  · by_cases hsn : sel = name
    · subst hsn
      cases mr <;> cases sl <;> cases pn <;>
          cases hr : resolveLayer lm sel <;>
        simp [step, selectConservancyByName, applySelectUpdate,
          revertSelectedLayer, highlightLayer, runRender, debounceRender,
          panelRender, panelFetchEffect, fetchStart, initialPanelState,
          hn, hr, List.set_set]
    · have hns : ¬ name = sel := fun hc => hsn hc.symm
      cases mr <;> cases sl <;> cases pn <;>
          cases hr : resolveLayer lm name <;>
        simp [step, selectConservancyByName, applySelectUpdate,
          revertSelectedLayer, highlightLayer, runRender, debounceRender,
          panelRender, panelFetchEffect, fetchStart, initialPanelState,
          hn, hsn, hns, hr, List.set_set]

/-- Witness instantiating C8 at the sample environment. -/
theorem claim_C8_witness :
    ((step sampleEnv (step sampleEnv (initState sampleEnv)
        (Event.dropdownSelect "Naapu")).1
        (Event.dropdownSelect "Naapu")).1.selectedLayer
      = (step sampleEnv (initState sampleEnv)
        (Event.dropdownSelect "Naapu")).1.selectedLayer) ∧
    ((step sampleEnv (step sampleEnv (initState sampleEnv)
        (Event.dropdownSelect "Naapu")).1
        (Event.dropdownSelect "Naapu")).1.styles
      = (step sampleEnv (initState sampleEnv)
        (Event.dropdownSelect "Naapu")).1.styles) ∧
    ((step sampleEnv (step sampleEnv (initState sampleEnv)
        (Event.dropdownSelect "Naapu")).1
        (Event.dropdownSelect "Naapu")).1.selectedConservancy
      = (step sampleEnv (initState sampleEnv)
        (Event.dropdownSelect "Naapu")).1.selectedConservancy) ∧
    ((step sampleEnv (step sampleEnv (initState sampleEnv)
        (Event.dropdownSelect "Naapu")).1
        (Event.dropdownSelect "Naapu")).1.panel
      = (step sampleEnv (initState sampleEnv)
        (Event.dropdownSelect "Naapu")).1.panel) :=
  claim_C8 sampleEnv (initState sampleEnv) "Naapu"

end NRTDash
